import Mathlib

/-!
Shallow embedding of the mkdemo interaction-and-recording pipeline.

Each definition is translated from the JavaScript source of the repository:
the authentication handler, the AI decision maker, the video processor, the
browser element resolver, and the audio generator module.  External effects
(the browser page, the speech service, the filesystem) are modelled as
explicit parameters or as event traces; JavaScript exceptions are modelled
with Except; JavaScript numbers are modelled with Nat and Int using exact
arithmetic.
-/

namespace Mkdemo

/-! ## JS string primitives shared by several components -/

/-- The characters matched by `\s` in the regexes and trimmed by
`String.prototype.trim` (ASCII model). -/
def isJsSpace (c : Char) : Bool :=
  c == ' ' || c == '\t' || c == '\n' || c == '\r' || c == '\x0b' || c == '\x0c'

/-- `String.prototype.trim` over a character list. -/
def jsTrim (cs : List Char) : List Char :=
  ((cs.dropWhile isJsSpace).reverse.dropWhile isJsSpace).reverse

/-- `String.prototype.trim`. -/
def jsTrimStr (s : String) : String :=
  (jsTrim s.toList).asString

/-- `String.prototype.split` with a single-character separator. -/
def splitCharAux (sep : Char) : List Char → List Char → List String
  | [], cur => [cur.reverse.asString]
  | c :: rest, cur =>
    if c == sep then cur.reverse.asString :: splitCharAux sep rest []
    else splitCharAux sep rest (c :: cur)

/-- `s.split(sep)` for a one-character separator. -/
def jsSplitChar (sep : Char) (s : String) : List String :=
  splitCharAux sep s.toList []

/-! ## Session negotiator (src/auth/handler.js) -/

/-- A page as seen by the session negotiator: its current URL after the
bounded wait, and for each CSS selector the text content of the first
matching element (`none` when no element matches the selector, mirroring a
null result of `page.dollar(selector)`). -/
structure AuthPage where
  url : String
  query : String → Option String

/-- The ordered error-indicator selector list probed by
`waitForAuthenticationResult`. -/
def errorSelectors : List String :=
  [".error", ".alert-danger", ".alert-error",
   "[class*=\"error\"]", "[class*=\"invalid\"]", "[role=\"alert\"]"]

/-- The scan loop of `waitForAuthenticationResult`: walk `errorSelectors` in
order and stop at the first selector that matches an element, yielding that
element's text content (the JS loop breaks at the first non-null
`page.dollar(selector)` result, even when its text is empty). -/
def firstErrorMessage (page : AuthPage) : Option String :=
  errorSelectors.findSome? page.query

/-- The generic ambiguous-outcome failure reason. -/
def unclearMessage : String :=
  "Authentication result unclear - no URL change or error message detected"

/-- Result record of `waitForAuthenticationResult`. -/
structure AuthWaitResult where
  success : Bool
  newUrl : Option String
  error : Option String

/-- `AuthenticationHandler.waitForAuthenticationResult`, non-throwing path:
after the bounded navigation wait, success is declared exactly when the
observed URL differs from `originalUrl`; otherwise the error-indicator scan
runs, a truthy (non-empty) text becomes the trimmed failure reason, and a
missing or empty text yields the generic unclear reason. -/
def waitForAuthenticationResult (page : AuthPage) (originalUrl : String) :
    AuthWaitResult :=
  if page.url ≠ originalUrl then
    { success := true, newUrl := some page.url, error := none }
  else
    match firstErrorMessage page with
    | some msg =>
      if msg ≠ "" then
        { success := false, newUrl := none, error := some (jsTrimStr msg) }
      else
        { success := false, newUrl := none, error := some unclearMessage }
    | none => { success := false, newUrl := none, error := some unclearMessage }

/-- Credentials passed to `authenticate`; the empty string models a missing
or empty (JS-falsy) field. -/
structure Credentials where
  user : String
  password : String

/-- Result of `detectLoginForm` (which never throws: it catches internal
errors and reports `found = false`). -/
structure FormDetection where
  found : Bool

/-- Outcomes of the awaited browser stages inside the try block of
`authenticate`; `Except.error` models a thrown JS exception at that stage. -/
structure AuthEnv where
  detectOutcome : Except String FormDetection
  fillOutcome : Except String Unit
  waitOutcome : Except String AuthWaitResult

/-- The caller-error message raised by `authenticate` on missing
credentials. -/
def missingCredentialsMessage : String :=
  "Missing required credentials: user and password"

/-- `AuthenticationHandler.authenticate`: raises on missing credentials
before any browser stage runs; afterwards every stage exception is caught
and converted to the boolean `false` result, and a completed wait yields its
success flag. -/
def authenticate (creds : Credentials) (env : AuthEnv) : Except String Bool :=
  if creds.user = "" ∨ creds.password = "" then
    Except.error missingCredentialsMessage
  else
    match env.detectOutcome with
    | Except.error _ => Except.ok false
    | Except.ok d =>
      if d.found then
        match env.fillOutcome with
        | Except.error _ => Except.ok false
        | Except.ok _ =>
          match env.waitOutcome with
          | Except.error _ => Except.ok false
          | Except.ok r => Except.ok r.success
      else Except.ok false

/-! ## Interaction planner (src/ai/decision-maker.js) -/

/-- A step-shaped object returned by the reasoning service; absent JS fields
are modelled as the empty string (both are falsy in the validation). -/
structure Interaction where
  type : String
  selector : String
  description : String
  text : String
  reasoning : String
  duration : Nat
deriving DecidableEq

/-- `this.supportedInteractions` of `AIDecisionMaker`. -/
def supportedInteractions : List String :=
  ["click", "type", "hover", "scroll", "wait"]

/-- `AIDecisionMaker.validateInteraction`. -/
def validateInteraction (i : Interaction) : Bool :=
  if i.type = "" ∨ i.selector = "" ∨ i.description = "" then false
  else if ¬ (supportedInteractions.contains i.type) then false
  else if i.type = "type" ∧ i.text = "" then false
  else true

/-- The validation-and-truncation tail of `AIDecisionMaker.planInteractions`:
the step list returned by the reasoning service is filtered by
`validateInteraction` and cut to `maxInteractions` entries. -/
def planInteractions (aiInteractions : List Interaction)
    (maxInteractions : Nat) : List Interaction :=
  (aiInteractions.filter validateInteraction).take maxInteractions

/-! ## Page-state capture (src/ai/decision-maker.js and
src/browser/manager.js) -/

/-- The per-element data collected inside the page-evaluate callbacks before
truncation. -/
structure RawElement where
  offsetParentPresent : Bool
  tag : String
  type : Option String
  text : String
  visible : Bool

/-- JS truthiness of the collected `type` field (`el.type || null`). -/
def jsTruthyOpt (o : Option String) : Bool :=
  o.getD "" ≠ ""

/-- Element collection of `AIDecisionMaker.capturePageState`: keep elements
with an offset parent whose computed info passes
`visible && (text || type)`, then truncate to the first 30. -/
def aiCapturePageState (collected : List RawElement) : List RawElement :=
  (collected.filter fun el =>
      el.offsetParentPresent &&
        (el.visible && (el.text ≠ "" || jsTruthyOpt el.type))).take 30

/-- Element collection of `BrowserManager.capturePageState`: keep elements
with an offset parent whose computed info passes `text || type`, then
truncate to the first 20. -/
def browserCapturePageState (collected : List RawElement) : List RawElement :=
  (collected.filter fun el =>
      el.offsetParentPresent && (el.text ≠ "" || jsTruthyOpt el.type)).take 20

/-! ## Video processor (src/video/processor.js) -/

/-- Observable operations performed during `finalizeVideo`, in order. -/
inductive VideoOp where
  | saveFrames (frameCount : Nat)
  | buildAudioTrack (segmentCount : Nat)
  | encodeWithAudio
  | encodeVideoOnly
  | cleanupTempFiles
deriving DecidableEq

/-- Whether an operation is an invocation of the video-encoding engine. -/
def isEncodeInvocation : VideoOp → Bool
  | VideoOp.encodeWithAudio => true
  | VideoOp.encodeVideoOnly => true
  | _ => false

/-- `VideoProcessor.finalizeVideo`, successful path: frames are written to
disk, then with at least one audio segment the combined audio track is built
and `createVideoWithAudio` runs, otherwise `createVideoOnly` runs; temporary
files are cleaned up and the output path is returned. -/
def finalizeVideo (frames : List Nat) (audioSegments : List Nat)
    (outputPath : String) : String × List VideoOp :=
  (outputPath,
    [VideoOp.saveFrames frames.length] ++
      (if audioSegments.length > 0 then
        [VideoOp.buildAudioTrack audioSegments.length, VideoOp.encodeWithAudio]
      else
        [VideoOp.encodeVideoOnly]) ++
      [VideoOp.cleanupTempFiles])

/-- Bitrate pair of `VideoProcessor.getQualitySettings`. -/
structure QualitySettings where
  videoBitrate : String
  audioBitrate : String
deriving DecidableEq

/-- Property names the `settings` object literal inherits from
`Object.prototype` (Node): each of these bracket lookups yields a truthy
value - a built-in function, or for the `__proto__` accessor the prototype
object itself. -/
def objectPrototypeKeys : List String :=
  ["constructor", "hasOwnProperty", "isPrototypeOf", "propertyIsEnumerable",
   "toLocaleString", "toString", "valueOf", "__proto__",
   "__defineGetter__", "__defineSetter__", "__lookupGetter__",
   "__lookupSetter__"]

/-- The JS value produced by `settings[quality]`: one of the three own
properties, a truthy value inherited from `Object.prototype`, or
`undefined`. -/
inductive QualityLookup where
  | settings (s : QualitySettings)
  | inherited
  | undef
deriving DecidableEq

/-- The bracket lookup `settings[this.quality]` on the object literal of
`getQualitySettings`, including the prototype chain: an own property wins,
otherwise a property name of `Object.prototype` yields its truthy inherited
value, otherwise the lookup is `undefined`. -/
def qualityLookup (quality : String) : QualityLookup :=
  if quality = "high" then QualityLookup.settings ⟨"5000k", "192k"⟩
  else if quality = "medium" then QualityLookup.settings ⟨"2500k", "128k"⟩
  else if quality = "low" then QualityLookup.settings ⟨"1000k", "96k"⟩
  else if objectPrototypeKeys.contains quality then QualityLookup.inherited
  else QualityLookup.undef

/-- The JS value returned by `getQualitySettings`: a defined bitrate pair,
or an inherited `Object.prototype` member - on which `videoBitrate` and
`audioBitrate` are undefined. -/
inductive QualityResult where
  | settings (s : QualitySettings)
  | inherited
deriving DecidableEq

/-- `VideoProcessor.getQualitySettings`:
`settings[this.quality] || settings.high`.  A truthy lookup result -
including a truthy value inherited from `Object.prototype` - short-circuits
the fallback; only `undefined` falls back to `settings.high`. -/
def getQualitySettings (quality : String) : QualityResult :=
  match qualityLookup quality with
  | QualityLookup.settings s => QualityResult.settings s
  | QualityLookup.inherited => QualityResult.inherited
  | QualityLookup.undef => QualityResult.settings ⟨"5000k", "192k"⟩

/-! ## Element resolver, positional-pick strategy
(src/browser/manager.js, `findElementWithFallback` strategy 4) -/

/-- Numeric value of a digit list. -/
def digitsVal (ds : List Char) : Nat :=
  ds.foldl (fun acc c => acc * 10 + (c.toNat - 48)) 0

/-- Case-sensitive literal match of `pat` at the head of `cs`. -/
def listStartsWith : List Char → List Char → Bool
  | [], _ => true
  | _ :: _, [] => false
  | p :: ps, c :: cs => p == c && listStartsWith ps cs

/-- The literal part of the regex used by `extractNthIndex`. -/
def nthOfTypePattern : List Char := ":nth-of-type(".toList

/-- Scan for the first full match of the regex
`:nth-of-type\((\d+)\)` and return its captured number, mirroring the
left-to-right first-match behaviour of `String.prototype.match`. -/
def findNthIndexAux : List Char → Option Nat
  | [] => none
  | c :: rest =>
    if listStartsWith nthOfTypePattern (c :: rest) then
      let after := (c :: rest).drop nthOfTypePattern.length
      let digits := after.takeWhile Char.isDigit
      let afterDigits := after.drop digits.length
      if digits.isEmpty = false && listStartsWith [')'] afterDigits then
        some (digitsVal digits)
      else findNthIndexAux rest
    else findNthIndexAux rest

/-- First `:nth-of-type(k)` occurrence in a selector, if any. -/
def findNthIndex (selector : String) : Option Nat :=
  findNthIndexAux selector.toList

/-- `BrowserManager.extractNthIndex`: the captured index, defaulting to 1
when the selector carries no nth-of-type suffix. -/
def extractNthIndex (selector : String) : Nat :=
  (findNthIndex selector).getD 1

/-- Strategy 4 of `BrowserManager.findElementWithFallback`: take everything
before the first colon as the base selector, query all matching elements,
and pick `elements[Math.min(targetIndex - 1, elements.length - 1)]`,
falling back to `elements[0]` when that access is out of range (JS yields
`undefined` at index `-1`). `query` models `page.query_all`. -/
def positionalPick {α : Type} (selector : String)
    (query : String → List α) : Option α :=
  let baseSelector := (jsSplitChar ':' selector).headD ""
  let elements := query baseSelector
  if elements.length > 0 then
    let targetIndex : Int := extractNthIndex selector
    let idx : Int := min (targetIndex - 1) ((elements.length : Int) - 1)
    match (if 0 ≤ idx then elements.get? idx.toNat else none) with
    | some e => some e
    | none => elements.get? 0
  else none

/-- The 0-based position actually selected by the positional-pick strategy
for encoded index `k` over `n` matched elements:
`Math.min(k - 1, n - 1)` clamped below to 0 by the `|| elements[0]`
fallback. -/
def claimedPosition (k n : Nat) : Nat :=
  (min ((k : Int) - 1) ((n : Int) - 1)).toNat

/-! ## Audio generator text processing (src/audio/generator.js) -/

/-- The characters matched by `\w` (ASCII letters, digits, underscore). -/
def isWordChar (c : Char) : Bool :=
  c.isAlpha || c.isDigit || c == '_'

/-- The punctuation kept by the character filter of `preprocessText`. -/
def allowedPunct : List Char :=
  ['.', ',', '!', '?', ';', ':', '(', ')', '-', '\x27', '"']

/-- Replace every maximal whitespace run by a single space
(`replace(/\s+/g, ' ')`); the flag records whether the previous character
belonged to a run already collapsed. -/
def collapseWSAux : List Char → Bool → List Char
  | [], _ => []
  | c :: rest, inRun =>
    if isJsSpace c then
      if inRun then collapseWSAux rest true
      else ' ' :: collapseWSAux rest true
    else c :: collapseWSAux rest false

/-- `replace(/\s+/g, ' ')` over a character list. -/
def collapseWS (cs : List Char) : List Char :=
  collapseWSAux cs false

/-- `lastIndexOf('.')` over a character list, `-1` when absent. -/
def lastDotIndex (cs : List Char) : Int :=
  match cs.reverse.findIdx? (fun c => c == '.') with
  | some i => (cs.length : Int) - 1 - (i : Int)
  | none => -1

/-- The over-length branch of `preprocessText`: truncate to 4500 characters,
prefer cutting at the last sentence end when it lies beyond 80 percent of
the limit, otherwise append an ellipsis. -/
def truncateAtSentence (cs : List Char) : List Char :=
  let truncated := cs.take 4500
  let lastSentence := lastDotIndex truncated
  if lastSentence > 3600 then truncated.take (lastSentence.toNat + 1)
  else truncated ++ ['.', '.', '.']

/-- `preprocessText` of the audio generator module: normalise whitespace,
drop characters outside `[\w\s.,!?;:()\-'"]`, drop non-ASCII characters,
re-normalise, and truncate past 4500 characters. -/
def preprocessText (text : String) : String :=
  if text = "" then ""
  else
    let step1 := jsTrim (collapseWS text.toList)
    let step2 := step1.filter fun c =>
      isWordChar c || isJsSpace c || allowedPunct.contains c
    let step3 := step2.filter fun c => c.toNat ≤ 0x7F
    let step4 := jsTrim (collapseWS step3)
    let final := if step4.length > 4500 then truncateAtSentence step4 else step4
    final.asString

/-- `split(/\s+/)` over a character list, JS semantics: the separator run
boundaries produce empty tokens at the string ends and the empty string
yields a single empty token.  The fuel argument (at least the list length)
only bounds the recursion. -/
def splitWSFuel : Nat → List Char → List Char → List String
  | 0, cs, cur => [(cur.reverse ++ cs).asString]
  | _ + 1, [], cur => [cur.reverse.asString]
  | fuel + 1, c :: rest, cur =>
    if isJsSpace c then
      cur.reverse.asString :: splitWSFuel fuel (rest.dropWhile isJsSpace) []
    else splitWSFuel fuel rest (c :: cur)

/-- `s.split(/\s+/)`. -/
def jsSplitWS (s : String) : List String :=
  splitWSFuel s.toList.length s.toList []

/-- `estimateAudioDuration` of the audio generator module: zero for a
JS-falsy input, otherwise the word count of the preprocessed text divided
by 155 words per minute, converted to seconds and ceiled
(`Math.ceil` modelled as the exact rational ceiling). -/
def estimateAudioDuration (text : String) : Nat :=
  if text = "" then 0
  else
    let processedText := preprocessText text
    let wordCount := (jsSplitWS processedText).length
    (wordCount * 60 + 154) / 155

/-! ## `enhanceTextForSpeech` (src/audio/generator.js)

Each regex pass of the JS function is rendered as a left-to-right scanner
over the original character stream; as in `String.prototype.replace` with a
global regex, matching always continues on the original text after the end
of the previous match.  A fuel argument equal to the input length bounds
each scanner (every step consumes at least one input character). -/

/-- Case-insensitive literal match of `pat` at the head of `cs`. -/
def ciListStartsWith : List Char → List Char → Bool
  | [], _ => true
  | _ :: _, [] => false
  | p :: ps, c :: cs => p.toLower == c.toLower && ciListStartsWith ps cs

/-- First alternative (in regex order) matching case-insensitively at the
head of `cs`, returning the match length. -/
def firstCiMatch (alts : List (List Char)) (cs : List Char) : Option Nat :=
  match alts with
  | [] => none
  | a :: rest =>
    if ciListStartsWith a cs then some a.length else firstCiMatch rest cs

/-- Alternatives of `/(Welcome|Hello|Hi there|Let's|Now)[!.]?\s*/gi`. -/
def greetAlts : List (List Char) :=
  ["Welcome".toList, "Hello".toList, "Hi there".toList,
   "Let\x27s".toList, "Now".toList]

/-- Pass 1: `/(Welcome|Hello|Hi there|Let's|Now)[!.]?\s*/gi → '$1! '`. -/
def greetPass : Nat → List Char → List Char
  | 0, cs => cs
  | fuel + 1, cs =>
    match cs with
    | [] => []
    | c :: rest =>
      match firstCiMatch greetAlts cs with
      | some len =>
        let captured := cs.take len
        let after1 := cs.drop len
        let after2 :=
          match after1 with
          | d :: ds => if d == '!' || d == '.' then ds else after1
          | [] => []
        captured ++ '!' :: ' ' :: greetPass fuel (after2.dropWhile isJsSpace)
      | none => c :: greetPass fuel rest

/-- Word-boundary alternative replacement, shared by the emphasis and
conclusion passes (`/\b(alt1|...)\b/gi → mk match`): a match needs a
non-word character (or the text edge) on both sides; `prev` is the original
character preceding the scan position.  No alternative of either pass is a
prefix of another, so a failed right boundary fails the whole position. -/
def wbReplace (alts : List (List Char)) (mk : List Char → List Char) :
    Nat → Option Char → List Char → List Char
  | 0, _, cs => cs
  | fuel + 1, prev, cs =>
    match cs with
    | [] => []
    | c :: rest =>
      let prevIsWord := (prev.map isWordChar).getD false
      match (if prevIsWord then none else firstCiMatch alts cs) with
      | some len =>
        let captured := cs.take len
        let after := cs.drop len
        let rightOk :=
          match after with
          | [] => true
          | d :: _ => !isWordChar d
        if rightOk then
          mk captured ++ wbReplace alts mk fuel captured.getLast? after
        else c :: wbReplace alts mk fuel (some c) rest
      | none => c :: wbReplace alts mk fuel (some c) rest

/-- Alternatives of the emphasis pass. -/
def emphasisAlts : List (List Char) :=
  ["amazing".toList, "incredible".toList, "fantastic".toList,
   "excellent".toList, "outstanding".toList, "important".toList,
   "key".toList, "essential".toList]

/-- Replacement `'*$1*'` of the emphasis pass. -/
def emphasisWrap (captured : List Char) : List Char :=
  '*' :: (captured ++ ['*'])

/-- Alternatives of the conclusion pass. -/
def conclusionAlts : List (List Char) :=
  ["Overall".toList, "In conclusion".toList, "To sum up".toList,
   "Finally".toList, "Next".toList]

/-- Replacement `'... $1'` of the conclusion pass. -/
def conclusionWrap (captured : List Char) : List Char :=
  '.' :: '.' :: '.' :: ' ' :: captured

/-- Pass 4: `/([.!?])\s+([A-Z])/g → '$1 ... $2'`. -/
def sentencePausePass : Nat → List Char → List Char
  | 0, cs => cs
  | _ + 1, [] => []
  | fuel + 1, c :: rest =>
    if c == '.' || c == '!' || c == '?' then
      let ws := rest.takeWhile isJsSpace
      let after := rest.drop ws.length
      match after with
      | d :: ds =>
        if !ws.isEmpty && d.isUpper then
          c :: ' ' :: '.' :: '.' :: '.' :: ' ' :: d :: sentencePausePass fuel ds
        else c :: sentencePausePass fuel rest
      | [] => c :: sentencePausePass fuel rest
    else c :: sentencePausePass fuel rest

/-- Largest end offset `k ≥ 1` into the non-space run `run` at which the
trailing `\b` of the URL regex holds (the greedy `[^\s]+` backtracks to the
longest such offset); the character following the run is whitespace or the
text end, hence never a word character. -/
def bestUrlEnd (run : List Char) : Option Nat :=
  let rec go : Nat → Option Nat
    | 0 => none
    | k + 1 =>
      let lw := ((run.get? k).map isWordChar).getD false
      let rw := ((run.get? (k + 1)).map isWordChar).getD false
      if lw != rw then some (k + 1) else go k
  go run.length

/-- Pass 5: `/\b(https?:\/\/[^\s]+)\b/g → '... $1 ...'` (case-sensitive). -/
def urlPass : Nat → Option Char → List Char → List Char
  | 0, _, cs => cs
  | fuel + 1, prev, cs =>
    match cs with
    | [] => []
    | c :: rest =>
      let prevIsWord := (prev.map isWordChar).getD false
      let schemeLen :=
        if prevIsWord then 0
        else if listStartsWith "https://".toList cs then 8
        else if listStartsWith "http://".toList cs then 7
        else 0
      if schemeLen > 0 then
        let after := cs.drop schemeLen
        let run := after.takeWhile fun d => !isJsSpace d
        match bestUrlEnd run with
        | some k =>
          let matched := cs.take (schemeLen + k)
          '.' :: '.' :: '.' :: ' ' ::
            (matched ++ ' ' :: '.' :: '.' :: '.' ::
              urlPass fuel matched.getLast? (cs.drop (schemeLen + k)))
        | none => c :: urlPass fuel (some c) rest
      else c :: urlPass fuel (some c) rest

/-- `enhanceTextForSpeech` of the audio generator module: the five global
regex replacements applied in order. -/
def enhanceTextForSpeech (text : String) : String :=
  if text = "" then ""
  else
    let l0 := text.toList
    let l1 := greetPass l0.length l0
    let l2 := wbReplace emphasisAlts emphasisWrap l1.length none l1
    let l3 := wbReplace conclusionAlts conclusionWrap l2.length none l2
    let l4 := sentencePausePass l3.length l3
    let l5 := urlPass l4.length none l4
    l5.asString

/-! ## Speech synthesis (src/audio/generator.js, module-level API) -/

/-- Environment of a `generateSpeech` call: the optional
`ELEVENLABS_API_KEY` and the outcome of the `fetch` of each attempt
(`Except.error` models a rejected request or non-ok response;
`Except.ok n` a returned audio buffer of `n` bytes). -/
structure SpeechEnv where
  apiKey : Option String
  fetchOutcome : Nat → Except String Nat

/-- Outcome of the retry loop of `makeApiRequest`. -/
inductive ApiOutcome (α : Type) where
  | ok (a : α)
  | thrown (e : String)
  | fellThrough
deriving DecidableEq

/-- Trace of a `makeApiRequest` call: its outcome, how many fetch attempts
ran, and the backoff delays (in milliseconds) slept between attempts. -/
structure ApiCallTrace (α : Type) where
  outcome : ApiOutcome α
  attempts : Nat
  delays : List Nat

/-- The retry loop of `makeApiRequest`: attempt the fetch; on failure throw
when this was the last attempt (`attempt === retries - 1`), otherwise sleep
`2 ^ attempt * 1000` milliseconds and retry.  `fellThrough` models the loop
exhausting with zero configured retries (JS returns undefined then). -/
def makeApiRequestGo {α : Type} (fetchOutcome : Nat → Except String α) :
    Nat → Nat → List Nat → ApiCallTrace α
  | 0, attempt, delays => ⟨ApiOutcome.fellThrough, attempt, delays.reverse⟩
  | remaining + 1, attempt, delays =>
    match fetchOutcome attempt with
    | Except.ok a => ⟨ApiOutcome.ok a, attempt + 1, delays.reverse⟩
    | Except.error e =>
      if remaining = 0 then ⟨ApiOutcome.thrown e, attempt + 1, delays.reverse⟩
      else makeApiRequestGo fetchOutcome remaining (attempt + 1)
        (2 ^ attempt * 1000 :: delays)

/-- `makeApiRequest` with its retry bound (the JS default is 3). -/
def makeApiRequest {α : Type} (fetchOutcome : Nat → Except String α)
    (retries : Nat) : ApiCallTrace α :=
  makeApiRequestGo fetchOutcome retries 0 []

/-- Result of the module-level `generateSpeech`: the returned path or the
thrown message, plus the `fs.writeFile` events `(path, bytes)` in order. -/
structure SpeechResult where
  outcome : Except String String
  writes : List (String × Nat)

/-- Byte size of the mock MP3 buffer written by `mockGenerateAudio`
(4 header bytes plus 1000 zero bytes). -/
def mockAudioSize : Nat := 1004

/-- Message thrown (after the outer wrap) for invalid text input. -/
def textInvalidMessage : String :=
  "Failed to generate speech: Text is required and must be a non-empty string"

/-- Message thrown (after the outer wrap) for an invalid gender option. -/
def genderInvalidMessage : String :=
  "Failed to generate speech: Gender must be \x22male\x22, \x22female\x22, or null"

/-- The module-level `generateSpeech`: validate the text and gender option,
use `mockGenerateAudio` when no API key is configured, otherwise enhance
and preprocess the text and call `makeApiRequest`; every failure inside the
inner try (empty processed text, API error after retries, empty written
file, an undefined buffer) is caught and falls back to `mockGenerateAudio`.
Voice selection has no observable effect on the modelled result. -/
def generateSpeech (env : SpeechEnv) (text outputPath : String)
    (gender : Option String) : SpeechResult :=
  if text = "" ∨ jsTrimStr text = "" then
    ⟨Except.error textInvalidMessage, []⟩
  else if (match gender with
      | some g => !(g == "male" || g == "female")
      | none => false) then
    ⟨Except.error genderInvalidMessage, []⟩
  else
    match env.apiKey with
    | none => ⟨Except.ok outputPath, [(outputPath, mockAudioSize)]⟩
    | some _ =>
      let processedText := preprocessText (enhanceTextForSpeech text)
      if processedText.length = 0 then
        ⟨Except.ok outputPath, [(outputPath, mockAudioSize)]⟩
      else
        match (makeApiRequest env.fetchOutcome 3).outcome with
        | ApiOutcome.ok size =>
          if size = 0 then
            ⟨Except.ok outputPath, [(outputPath, size), (outputPath, mockAudioSize)]⟩
          else ⟨Except.ok outputPath, [(outputPath, size)]⟩
        | ApiOutcome.thrown _ =>
          ⟨Except.ok outputPath, [(outputPath, mockAudioSize)]⟩
        | ApiOutcome.fellThrough =>
          ⟨Except.ok outputPath, [(outputPath, mockAudioSize)]⟩

/-- A speech environment whose every fetch attempt fails. -/
def envAllFail : SpeechEnv :=
  ⟨some "api-key", fun _ => Except.error "Eleven Labs API error: 500"⟩

/-! ## Theorems -/

/-- Claim C1: `waitForAuthenticationResult(page, originalUrl)` returns
`success = true` if and only if the page URL observed after the bounded wait
differs from `originalUrl`; when the URL is unchanged it returns
`success = false`, with the trimmed text of the first error indicator found
by the selector scan as the reason when that text is non-empty, and with the
generic unclear reason when no indicator element is found or its text is
empty. -/
theorem waitForAuthenticationResult_spec (page : AuthPage)
    (originalUrl : String) :
    ((waitForAuthenticationResult page originalUrl).success = true ↔
        page.url ≠ originalUrl)
    ∧ (page.url = originalUrl →
        (waitForAuthenticationResult page originalUrl).success = false
        ∧ (∀ msg, firstErrorMessage page = some msg → msg ≠ "" →
            (waitForAuthenticationResult page originalUrl).error
              = some (jsTrimStr msg))
        ∧ (firstErrorMessage page = none →
            (waitForAuthenticationResult page originalUrl).error
              = some unclearMessage)
        ∧ (firstErrorMessage page = some "" →
            (waitForAuthenticationResult page originalUrl).error
              = some unclearMessage)) := by
  by_cases h : page.url = originalUrl
  · have hres : waitForAuthenticationResult page originalUrl
        = (match firstErrorMessage page with
          | some msg =>
            if msg ≠ "" then
              { success := false, newUrl := none, error := some (jsTrimStr msg) }
            else
              { success := false, newUrl := none, error := some unclearMessage }
          | none =>
            { success := false, newUrl := none, error := some unclearMessage }) := by
      unfold waitForAuthenticationResult
      rw [if_neg (by simpa using h)]
    constructor
    · rw [hres]
      rcases hm : firstErrorMessage page with _ | msg
      · simp [h]
      · by_cases hmsg : msg = "" <;> simp [hmsg, h]
    · intro _
      refine ⟨?_, ?_, ?_, ?_⟩
      · rw [hres]
        rcases hm : firstErrorMessage page with _ | msg
        · rfl
        · by_cases hmsg : msg = "" <;> simp [hmsg]
      · intro msg hm hmsg
        rw [hres, hm]
        simp [hmsg]
      · intro hm
        rw [hres, hm]
      · intro hm
        rw [hres, hm]
        simp
  · have hres : waitForAuthenticationResult page originalUrl
        = { success := true, newUrl := some page.url, error := none } := by
      unfold waitForAuthenticationResult
      rw [if_pos h]
    constructor
    · rw [hres]
      simp [h]
    · intro hurl
      exact absurd hurl h

/-- Claim C1 witness: a page whose URL did not change and whose
`.alert-danger` indicator carries text fails with that trimmed text. -/
theorem waitForAuthenticationResult_spec_witness :
    (waitForAuthenticationResult
        ⟨"https://app.example/login",
          fun s => if s = ".alert-danger" then some " Invalid password " else none⟩
        "https://app.example/login").success = false
    ∧ (waitForAuthenticationResult
        ⟨"https://app.example/login",
          fun s => if s = ".alert-danger" then some " Invalid password " else none⟩
        "https://app.example/login").error = some "Invalid password" := by
  have h := (waitForAuthenticationResult_spec
      ⟨"https://app.example/login",
        fun s => if s = ".alert-danger" then some " Invalid password " else none⟩
      "https://app.example/login").2 rfl
  refine ⟨h.1, ?_⟩
  have h2 := h.2.1 " Invalid password " (by decide) (by decide)
  rw [h2]
  decide

/-- Claim C2: `authenticate` raises an error mentioning the credentials
exactly when the user or the password is missing or empty; in that case the
result does not depend on the browser environment (no browser stage runs),
and with complete credentials every stage exception is caught and converted
into the boolean `false` result, so `authenticate` always returns a
boolean. -/
theorem authenticate_spec (creds : Credentials) (env : AuthEnv) :
    ((creds.user = "" ∨ creds.password = "") →
        authenticate creds env = Except.error missingCredentialsMessage
        ∧ (∃ pre post, missingCredentialsMessage = pre ++ "credentials" ++ post)
        ∧ ∀ env' : AuthEnv, authenticate creds env' = authenticate creds env)
    ∧ (creds.user ≠ "" → creds.password ≠ "" →
        (∃ b, authenticate creds env = Except.ok b)
        ∧ (∀ e, env.detectOutcome = Except.error e →
            authenticate creds env = Except.ok false)
        ∧ (∀ d e, env.detectOutcome = Except.ok d → d.found = true →
            env.fillOutcome = Except.error e →
            authenticate creds env = Except.ok false)
        ∧ (∀ d e, env.detectOutcome = Except.ok d → d.found = true →
            env.fillOutcome = Except.ok () → env.waitOutcome = Except.error e →
            authenticate creds env = Except.ok false)) := by
  constructor
  · intro hmiss
    refine ⟨?_, ⟨"Missing required ", ": user and password", rfl⟩, ?_⟩
    · unfold authenticate
      rw [if_pos hmiss]
    · intro env'
      unfold authenticate
      rw [if_pos hmiss, if_pos hmiss]
  · intro hu hp
    have hcond : ¬(creds.user = "" ∨ creds.password = "") := by tauto
    refine ⟨?_, ?_, ?_, ?_⟩
    · unfold authenticate
      rw [if_neg hcond]
      split
      · exact ⟨false, rfl⟩
      · split
        · split
          · exact ⟨false, rfl⟩
          · split
            · exact ⟨false, rfl⟩
            · exact ⟨_, rfl⟩
        · exact ⟨false, rfl⟩
    · intro e he
      unfold authenticate
      rw [if_neg hcond, he]
    · intro d e hd hdf hf
      unfold authenticate
      rw [if_neg hcond, hd]
      simp [hdf, hf]
    · intro d e hd hdf hf hw
      unfold authenticate
      rw [if_neg hcond, hd]
      simp [hdf, hf, hw]

/-- Claim C2 witness: the spec scenario - empty user with password present
is a fatal caller error with the credentials message, for an arbitrary
browser environment. -/
theorem authenticate_spec_witness :
    authenticate ⟨"", "p"⟩
      ⟨Except.ok ⟨true⟩, Except.ok (), Except.ok ⟨true, some "u", none⟩⟩
      = Except.error missingCredentialsMessage :=
  ((authenticate_spec ⟨"", "p"⟩
      ⟨Except.ok ⟨true⟩, Except.ok (), Except.ok ⟨true, some "u", none⟩⟩).1
    (Or.inl rfl)).1

/-- Claim C7: `finalizeVideo` with no audio segments performs exactly one
encoder invocation, the video-only one; with at least one segment the
operation trace is exactly save frames, build the combined audio track,
the single with-audio encoder invocation, cleanup - so the audio-track
build precedes the encode. -/
theorem finalizeVideo_spec (frames audioSegments : List Nat)
    (outputPath : String) :
    (finalizeVideo frames audioSegments outputPath).1 = outputPath
    ∧ (audioSegments = [] →
        ((finalizeVideo frames audioSegments outputPath).2.filter
            isEncodeInvocation)
          = [VideoOp.encodeVideoOnly])
    ∧ (audioSegments ≠ [] →
        ((finalizeVideo frames audioSegments outputPath).2.filter
            isEncodeInvocation)
          = [VideoOp.encodeWithAudio]
        ∧ (finalizeVideo frames audioSegments outputPath).2
            = [VideoOp.saveFrames frames.length,
               VideoOp.buildAudioTrack audioSegments.length,
               VideoOp.encodeWithAudio, VideoOp.cleanupTempFiles]) := by
  refine ⟨rfl, ?_, ?_⟩
  · intro h
    subst h
    rfl
  · intro h
    have hlen : audioSegments.length > 0 := by
      cases audioSegments with
      | nil => exact absurd rfl h
      | cons a l => simp
    have h2 : (finalizeVideo frames audioSegments outputPath).2
        = [VideoOp.saveFrames frames.length,
           VideoOp.buildAudioTrack audioSegments.length,
           VideoOp.encodeWithAudio, VideoOp.cleanupTempFiles] := by
      unfold finalizeVideo
      rw [if_pos hlen]
      rfl
    exact ⟨by rw [h2]; rfl, h2⟩

/-- Claim C7 witness: with one audio segment the single encoder invocation
is the with-audio one. -/
theorem finalizeVideo_spec_witness :
    ((finalizeVideo [5] [1] "demo.mp4").2.filter isEncodeInvocation)
      = [VideoOp.encodeWithAudio] :=
  ((finalizeVideo_spec [5] [1] "demo.mp4").2.2 (by decide)).1

/-- Claim C8: both capture implementations truncate the collected
interactive-element list before returning - the decision maker to 30
entries and the browser manager to 20 - so every snapshot handed to the
planner holds at most 30 interactive elements. -/
theorem capturePageState_bounded (collected : List RawElement) :
    (aiCapturePageState collected).length ≤ 30
    ∧ (browserCapturePageState collected).length ≤ 20
    ∧ (browserCapturePageState collected).length ≤ 30 := by
  refine ⟨?_, ?_, ?_⟩
  · exact List.length_take_le 30 _
  · exact List.length_take_le 20 _
  · exact le_trans (List.length_take_le 20 _) (by omega)

/-- Claim C9 counterexample: the quality value `constructor` is outside the
recognized set, yet the bracket lookup finds the truthy
`Object.prototype.constructor` on the prototype chain, so
`getQualitySettings` returns that inherited value - whose bitrate fields
are undefined - and not the high settings. -/
theorem getQualitySettings_counterexample :
    ¬("constructor" = "high" ∨ "constructor" = "medium"
        ∨ "constructor" = "low")
    ∧ getQualitySettings "constructor" = QualityResult.inherited
    ∧ getQualitySettings "constructor"
        ≠ QualityResult.settings ⟨"5000k", "192k"⟩ := by
  decide

/-- Claim C9 (amended): for every quality value outside the recognized set
that is not a property name inherited from `Object.prototype`,
`getQualitySettings` returns the high settings (5000k video, 192k audio);
for an inherited property name it returns the truthy inherited value with
undefined bitrates, so the lookup-with-fallback is not total over all
quality strings - its result is always one of the three defined pairs or
the inherited value. -/
theorem getQualitySettings_spec (quality : String) :
    (quality ≠ "high" → quality ≠ "medium" → quality ≠ "low" →
        objectPrototypeKeys.contains quality = false →
        getQualitySettings quality = QualityResult.settings ⟨"5000k", "192k"⟩)
    ∧ (objectPrototypeKeys.contains quality = true →
        getQualitySettings quality = QualityResult.inherited)
    ∧ (getQualitySettings quality = QualityResult.settings ⟨"5000k", "192k"⟩
        ∨ getQualitySettings quality = QualityResult.settings ⟨"2500k", "128k"⟩
        ∨ getQualitySettings quality = QualityResult.settings ⟨"1000k", "96k"⟩
        ∨ getQualitySettings quality = QualityResult.inherited) := by
  refine ⟨?_, ?_, ?_⟩
  · intro h1 h2 h3 h4
    unfold getQualitySettings qualityLookup
    rw [if_neg h1, if_neg h2, if_neg h3, if_neg (by rw [h4]; simp)]
  · intro h
    have hmem : quality ∈ objectPrototypeKeys := by simpa using h
    simp only [objectPrototypeKeys, List.mem_cons, List.not_mem_nil,
      or_false] at hmem
    rcases hmem with rfl | rfl | rfl | rfl | rfl | rfl | rfl | rfl | rfl
      | rfl | rfl | rfl
    all_goals rfl
  · unfold getQualitySettings qualityLookup
    split_ifs <;> simp

/-- Claim C9 witness: an unrecognized quality value that is no
`Object.prototype` member yields the high settings. -/
theorem getQualitySettings_spec_witness :
    getQualitySettings "ultra" = QualityResult.settings ⟨"5000k", "192k"⟩ :=
  (getQualitySettings_spec "ultra").1 (by decide) (by decide) (by decide)
    (by decide)

/-- Claim C6: `validateInteraction` accepts a step exactly when its type,
selector and description are non-empty, the type is one of the five
supported kinds, and a type step carries non-empty text; `planInteractions`
keeps exactly the accepted steps in order, never exceeds the configured
maximum, and keeps every accepted step whenever the accepted steps fit
within the maximum. -/
theorem interactionPlanning_spec :
    (∀ i : Interaction, validateInteraction i = true ↔
        (i.type ≠ "" ∧ i.selector ≠ "" ∧ i.description ≠ ""
          ∧ (i.type = "click" ∨ i.type = "type" ∨ i.type = "hover"
              ∨ i.type = "scroll" ∨ i.type = "wait")
          ∧ (i.type = "type" → i.text ≠ "")))
    ∧ ∀ (aiInteractions : List Interaction) (maxInteractions : Nat),
        (∀ i ∈ planInteractions aiInteractions maxInteractions,
            validateInteraction i = true)
        ∧ (planInteractions aiInteractions maxInteractions).length
            ≤ maxInteractions
        ∧ List.Sublist (planInteractions aiInteractions maxInteractions)
            aiInteractions
        ∧ ((aiInteractions.filter validateInteraction).length
              ≤ maxInteractions →
            planInteractions aiInteractions maxInteractions
              = aiInteractions.filter validateInteraction) := by
  constructor
  · intro i
    unfold validateInteraction
    constructor
    · intro h
      by_cases h1 : i.type = "" ∨ i.selector = "" ∨ i.description = ""
      · rw [if_pos h1] at h
        simp at h
      · rw [if_neg h1] at h
        by_cases h2 : ¬ (supportedInteractions.contains i.type = true)
        · rw [if_pos h2] at h
          simp at h
        · rw [if_neg h2] at h
          by_cases h3 : i.type = "type" ∧ i.text = ""
          · rw [if_pos h3] at h
            simp at h
          · push_neg at h1
            have hmem : i.type ∈ supportedInteractions := by
              have hc : supportedInteractions.contains i.type = true := by
                by_contra hc
                exact h2 hc
              simpa using hc
            refine ⟨h1.1, h1.2.1, h1.2.2, ?_, ?_⟩
            · simpa [supportedInteractions] using hmem
            · intro hty
              by_contra htx
              exact h3 ⟨hty, htx⟩
    · rintro ⟨h1, h2, h3, h4, h5⟩
      rw [if_neg (by tauto), if_neg ?_, if_neg ?_]
      · rintro ⟨hty, htx⟩
        exact h5 hty htx
      · rw [not_not]
        have : i.type ∈ supportedInteractions := by
          simp [supportedInteractions]
          tauto
        simpa using this
  · intro aiInteractions maxInteractions
    refine ⟨?_, ?_, ?_, ?_⟩
    · intro i hi
      have hmem : i ∈ aiInteractions.filter validateInteraction :=
        List.take_subset _ _ hi
      exact List.of_mem_filter hmem
    · exact List.length_take_le _ _
    · exact List.Sublist.trans (List.take_sublist _ _)
        (List.filter_sublist _)
    · intro hle
      unfold planInteractions
      exact List.take_of_length_le hle

/-- Claim C6 witness: a valid click step is kept and an invalid type step
(no text) is dropped, with the result fitting the maximum of one. -/
theorem interactionPlanning_spec_witness :
    planInteractions
      [⟨"click", "button", "Click the main button", "", "Open the menu", 3000⟩,
       ⟨"type", "input", "Type the email", "", "", 2000⟩] 1
      = [⟨"click", "button", "Click the main button", "", "Open the menu", 3000⟩] := by
  have h := (interactionPlanning_spec.2
      [⟨"click", "button", "Click the main button", "", "Open the menu", 3000⟩,
       ⟨"type", "input", "Type the email", "", "", 2000⟩] 1).2.2.2
  have hlen : (List.filter validateInteraction
      [⟨"click", "button", "Click the main button", "", "Open the menu", 3000⟩,
       ⟨"type", "input", "Type the email", "", "", 2000⟩]).length ≤ 1 := by
    decide
  rw [h hlen]
  decide

/-- Claim C4 counterexample: the texts `a` and `a b` have word counts 1 and
2, yet both estimate to 1 second - the estimated duration is not strictly
increasing in the word count, because the seconds value is a ceiling of
`wordCount * 60 / 155`. -/
theorem estimateAudioDuration_counterexample :
    (jsSplitWS (preprocessText "a")).length = 1
    ∧ (jsSplitWS (preprocessText "a b")).length = 2
    ∧ estimateAudioDuration "a" = 1
    ∧ estimateAudioDuration "a b" = 1 := by
  decide

/-- Claim C4 (amended): `estimateAudioDuration` of the empty string is 0,
and for the fixed speaking rate the estimated duration is monotonically
non-decreasing (not strictly increasing) in the word count of the
preprocessed text. -/
theorem estimateAudioDuration_spec (s t : String) :
    estimateAudioDuration "" = 0
    ∧ (s ≠ "" → t ≠ "" →
        (jsSplitWS (preprocessText s)).length
          ≤ (jsSplitWS (preprocessText t)).length →
        estimateAudioDuration s ≤ estimateAudioDuration t) := by
  refine ⟨rfl, ?_⟩
  intro hs ht h
  unfold estimateAudioDuration
  rw [if_neg hs, if_neg ht]
  exact Nat.div_le_div_right (by omega)

/-- Claim C4 witness: one word estimates to no more seconds than three
words. -/
theorem estimateAudioDuration_spec_witness :
    estimateAudioDuration "a" ≤ estimateAudioDuration "one two three" :=
  (estimateAudioDuration_spec "a" "one two three").2 (by decide) (by decide)
    (by decide)

/-- Claim C5 counterexample: the selector `button:nth-of-type(0)` encodes
the positional index 0, whose claimed 0-based position
`min(k, n) - 1 = -1` does not exist; on a base matching two elements the
positional-pick strategy instead returns the element at position 0. -/
theorem positionalPick_counterexample :
    extractNthIndex "button:nth-of-type(0)" = 0
    ∧ positionalPick "button:nth-of-type(0)"
        (fun s => if s = "button" then [10, 20] else ([] : List Nat))
        = some 10
    ∧ [10, 20].get? 0 = some 10
    ∧ min ((0 : Int)) 2 - 1 = -1 := by
  decide

/-- Claim C5 (amended): whenever the index-free base selector matches at
least one element, the positional-pick strategy returns the element at the
0-based position `max(min(k, n) - 1, 0)` - which equals `min(k, n) - 1`
for every encoded index `k ≥ 1` - and that position is always in range;
a selector with no nth-of-type index is treated as `k = 1`. -/
theorem positionalPick_spec {α : Type} (selector : String)
    (query : String → List α)
    (h : 1 ≤ (query ((jsSplitChar ':' selector).headD "")).length) :
    positionalPick selector query
      = (query ((jsSplitChar ':' selector).headD "")).get?
          (claimedPosition (extractNthIndex selector)
            (query ((jsSplitChar ':' selector).headD "")).length)
    ∧ claimedPosition (extractNthIndex selector)
        (query ((jsSplitChar ':' selector).headD "")).length
        < (query ((jsSplitChar ':' selector).headD "")).length
    ∧ (1 ≤ extractNthIndex selector →
        claimedPosition (extractNthIndex selector)
          (query ((jsSplitChar ':' selector).headD "")).length
          = min (extractNthIndex selector)
              (query ((jsSplitChar ':' selector).headD "")).length - 1)
    ∧ (findNthIndex selector = none → extractNthIndex selector = 1) := by
  set elements := query ((jsSplitChar ':' selector).headD "") with helems
  set k := extractNthIndex selector with hk
  set n := elements.length with hn
  have hpos : claimedPosition k n < n := by
    unfold claimedPosition
    omega
  refine ⟨?_, hpos, ?_, ?_⟩
  · simp only [positionalPick]
    rw [← helems, ← hk]
    rw [if_pos (by omega : elements.length > 0)]
    rcases Nat.eq_zero_or_pos k with hk0 | hk1
    · have hidx : min ((k : Int) - 1) ((elements.length : Int) - 1) = -1 := by
        omega
      rw [hidx]
      rw [if_neg (by decide : ¬ (0 : Int) ≤ -1)]
      have hcp : claimedPosition k n = 0 := by
        unfold claimedPosition
        omega
      rw [hcp]
    · have hidx : (0 : Int)
          ≤ min ((k : Int) - 1) ((elements.length : Int) - 1) := by
        omega
      rw [if_pos hidx]
      have hlt : (min ((k : Int) - 1) ((elements.length : Int) - 1)).toNat
          < elements.length := by
        omega
      rcases hsome : elements.get?
          (min ((k : Int) - 1) ((elements.length : Int) - 1)).toNat
          with _ | e
      · exact absurd (List.get?_eq_none.mp hsome) (by omega)
      · have hcp : claimedPosition k n
            = (min ((k : Int) - 1) ((elements.length : Int) - 1)).toNat := by
          unfold claimedPosition
          rw [← hn]
        rw [hcp]
        exact hsome.symm
  · intro hk1
    unfold claimedPosition
    omega
  · intro hnone
    rw [hk]
    unfold extractNthIndex
    rw [hnone]
    rfl

/-- Claim C5 witness: index 3 over a base matching two elements is clamped
to the last element, position `min(3, 2) - 1 = 1`. -/
theorem positionalPick_spec_witness :
    positionalPick "button:nth-of-type(3)"
      (fun s => if s = "button" then [10, 20] else ([] : List Nat))
      = some 20 := by
  have hlen : 1 ≤ ((fun s => if s = "button" then [10, 20] else ([] : List Nat))
      ((jsSplitChar ':' "button:nth-of-type(3)").headD "")).length := by
    decide
  have h := (positionalPick_spec "button:nth-of-type(3)"
      (fun s => if s = "button" then [10, 20] else ([] : List Nat)) hlen).1
  rw [h]
  decide

/-- Claim C3 counterexample: with an API key configured and every fetch
attempt failing, all three attempts run and `makeApiRequest` throws the
persistent error, yet `generateSpeech` does not raise - it falls back to
mock audio generation and returns the output path. -/
theorem generateSpeech_apiFailure_counterexample :
    (makeApiRequest envAllFail.fetchOutcome 3).outcome
        = ApiOutcome.thrown "Eleven Labs API error: 500"
    ∧ (makeApiRequest envAllFail.fetchOutcome 3).attempts = 3
    ∧ (generateSpeech envAllFail "click the button" "demo.mp3" none).outcome
        = Except.ok "demo.mp3"
    ∧ (generateSpeech envAllFail "click the button" "demo.mp3" none).writes
        = [("demo.mp3", mockAudioSize)] := by
  refine ⟨rfl, rfl, rfl, rfl⟩

/-- Claim C3 (amended): a speech request is retried at most 3 times with
exponential backoff (delays 1000 ms and 2000 ms between the attempts), and
an error persisting after the retries are exhausted is not fatal:
`generateSpeech` catches it, falls back to writing the mock audio buffer,
and returns the output path instead of raising. -/
theorem speechRetryFallback_spec (env : SpeechEnv)
    (text outputPath : String) (e0 e1 e2 k : String)
    (h0 : env.fetchOutcome 0 = Except.error e0)
    (h1 : env.fetchOutcome 1 = Except.error e1)
    (h2 : env.fetchOutcome 2 = Except.error e2)
    (hkey : env.apiKey = some k)
    (htext : jsTrimStr text ≠ "") :
    (∀ f : Nat → Except String Nat, (makeApiRequest f 3).attempts ≤ 3)
    ∧ makeApiRequest env.fetchOutcome 3
        = ⟨ApiOutcome.thrown e2, 3, [1000, 2000]⟩
    ∧ generateSpeech env text outputPath none
        = ⟨Except.ok outputPath, [(outputPath, mockAudioSize)]⟩ := by
  have htne : text ≠ "" := by
    intro hx
    apply htext
    rw [hx]
    rfl
  have hcond : ¬(text = "" ∨ jsTrimStr text = "") := by tauto
  have hreq : makeApiRequest env.fetchOutcome 3
      = ⟨ApiOutcome.thrown e2, 3, [1000, 2000]⟩ := by
    unfold makeApiRequest
    simp [makeApiRequestGo, h0, h1, h2]
  refine ⟨?_, hreq, ?_⟩
  · intro f
    unfold makeApiRequest
    rcases hf0 : f 0 with ea | a
    · rcases hf1 : f 1 with eb | b
      · rcases hf2 : f 2 with ec | c
        · simp [makeApiRequestGo, hf0, hf1, hf2]
        · simp [makeApiRequestGo, hf0, hf1, hf2]
      · simp [makeApiRequestGo, hf0, hf1]
    · simp [makeApiRequestGo, hf0]
  · unfold generateSpeech
    rw [if_neg hcond, hkey]
    by_cases hp : (preprocessText (enhanceTextForSpeech text)).length = 0
    · simp [hp]
    · simp [hp, hreq]

/-- Claim C3 witness: a concrete environment whose fetches always fail
produces the mock fallback result. -/
theorem speechRetryFallback_spec_witness :
    generateSpeech envAllFail "the login page" "out.mp3" none
      = ⟨Except.ok "out.mp3", [("out.mp3", mockAudioSize)]⟩ :=
  (speechRetryFallback_spec envAllFail "the login page" "out.mp3"
      "Eleven Labs API error: 500" "Eleven Labs API error: 500"
      "Eleven Labs API error: 500" "api-key" rfl rfl rfl rfl
      (by decide)).2.2

/-- Claim C10 counterexample: the one-space text is a non-empty string, yet
`generateSpeech` without an API key raises the invalid-text error instead
of writing a mock buffer - the code requires the text to be non-empty
after trimming. -/
theorem generateSpeechMock_counterexample :
    " " ≠ ""
    ∧ (generateSpeech ⟨none, fun _ => Except.error "unused"⟩ " " "demo.mp3"
          none).outcome
        = Except.error textInvalidMessage := by
  exact ⟨by decide, rfl⟩

/-- Claim C10 (amended): without the ELEVENLABS_API_KEY, `generateSpeech`
on any text that is non-empty after trimming does not raise: it writes the
small mock MP3 buffer (1004 bytes) to the requested output path and
returns that path. -/
theorem generateSpeechMock_spec (env : SpeechEnv) (text outputPath : String)
    (hkey : env.apiKey = none) (htext : jsTrimStr text ≠ "") :
    generateSpeech env text outputPath none
      = ⟨Except.ok outputPath, [(outputPath, mockAudioSize)]⟩ := by
  have htne : text ≠ "" := by
    intro hx
    apply htext
    rw [hx]
    rfl
  unfold generateSpeech
  rw [if_neg (by tauto : ¬(text = "" ∨ jsTrimStr text = "")), hkey]
  simp

/-- Claim C10 witness: a real text with the key absent yields the mock
file at the requested path. -/
theorem generateSpeechMock_spec_witness :
    generateSpeech ⟨none, fun _ => Except.error "offline"⟩ "Hello world"
      "demo.mp3" none
      = ⟨Except.ok "demo.mp3", [("demo.mp3", mockAudioSize)]⟩ :=
  generateSpeechMock_spec ⟨none, fun _ => Except.error "offline"⟩
    "Hello world" "demo.mp3" rfl (by decide)

end Mkdemo
